import Mathlib

/-
Verification of the dimcli session/query client (src/dimcli/dimensions.py and
src/dimcli/jupyter/magics.py) against its natural-language specification.

The embedding is shallow: JSON values are an inductive type, the HTTP server is
a trace (list) of responses consumed in dispatch order, and the side effects of
a call (requests issued, re-logins, sleeps) are returned explicitly.
-/

namespace Dimcli

/-- JSON values, the decoded bodies exchanged with the API. -/
inductive Json where
  | null : Json
  | bool : Bool → Json
  | num : Int → Json
  | str : String → Json
  | arr : List Json → Json
  | obj : List (String × Json) → Json

/-- Python's len() on a JSON value: defined for sequences, mappings and
strings; undefined (TypeError) for null, booleans and numbers. -/
def Json.pyLen : Json → Option Nat
  | .str s => some s.length
  | .arr xs => some xs.length
  | .obj kvs => some kvs.length
  | _ => none

/-- Whether a JSON value is a sequence (a JSON array). -/
def Json.isSeq : Json → Bool
  | .arr _ => true
  | _ => false

/-- Wrapper for JSON results from the DSL (class Result in dimensions.py).
Its data is the decoded JSON body, a mapping from string keys to values. -/
structure Result where
  data : List (String × Json)

/-- Result.__getitem__: return the value stored under the key when the key is
present, and False (the not-found sentinel) otherwise. -/
def Result.getItem (r : Result) (key : String) : Json :=
  match r.data.lookup key with
  | some v => v
  | none => Json.bool false

/-- Result.__getattr__: attribute access falls back to item access, with the
single renaming rule that the name stats is redirected to the key _stats. -/
def Result.getAttr (r : Result) (name : String) : Json :=
  if name = "stats" then r.getItem "_stats" else r.getItem name

/-- Result.keys: the list of top-level keys of the payload. -/
def Result.keys (r : Result) : List String :=
  r.data.map Prod.fst

/-- Helper for keys_and_count: walks the payload in key order, pairing each key
with len() of its value; none models the TypeError Python raises when a value
has no length. -/
def keysAndCountGo : List (String × Json) → Option (List (String × Nat))
  | [] => some []
  | (k, v) :: rest =>
    match Json.pyLen v, keysAndCountGo rest with
    | some n, some tl => some ((k, n) :: tl)
    | _, _ => none

/-- Result.keys_and_count: the list of (key, len(value)) pairs over all
top-level keys of the payload, in the payload's key order. -/
def Result.keys_and_count (r : Result) : Option (List (String × Nat)) :=
  keysAndCountGo r.data

/-- What claim C6 reads into the spec: only the keys whose value is a sequence
appear, paired with their item counts. Declared for comparison with the code's
keys_and_count; it is not a translation of the source. -/
def keysAndCountClaimed (r : Result) : List (String × Nat) :=
  (r.data.filter fun kv => kv.2.isSeq).map fun kv =>
    (kv.1, match kv.2 with | .arr xs => xs.length | _ => 0)

/-- One HTTP response of the dsl.json endpoint: a status code and a decoded
JSON body (a mapping, per the API contract). -/
structure Response where
  status : Nat
  body : List (String × Json)

/-- The observable side effects of one query call: the query strings dispatched
over HTTP in order, the number of re-logins, and the sleep durations in
seconds, in order. -/
structure Effects where
  requests : List String
  logins : Nat
  sleeps : List Nat

/-- How a call to Dsl.query ends: a Result is returned, None is returned
(raise_for_status on a non-error status), an HTTPError is raised, or the
response trace ran out before the recursion ended. -/
inductive Outcome where
  | ok : Result → Outcome
  | retNone : Outcome
  | raised : Nat → Outcome
  | exhausted : Outcome

/-- requests' Response.raise_for_status: raises an HTTPError exactly when the
status code is in the client-error or server-error range 400..599; otherwise
it returns None. -/
def raise_for_status (status : Nat) : Outcome :=
  if 400 ≤ status ∧ status ≤ 599 then Outcome.raised status else Outcome.retNone

/-- Dsl.query from dimensions.py, run against a trace of responses consumed in
dispatch order (the session holds a token throughout; _login always succeeds
and is counted in the effects). 429: sleep 30s and re-execute with the default
retry of 0; 403: re-login once and re-execute with the default retry of 0;
200/400/500: wrap the body in a Result and return; otherwise retry-with-sleep
while the budget lasts, then raise_for_status. -/
def Dsl.query (q : String) : Nat → List Response → Outcome × Effects
  | _, [] => (Outcome.exhausted, ⟨[q], 0, []⟩)
  | retry, resp :: rest =>
    if resp.status = 429 then
      let r := Dsl.query q 0 rest
      (r.1, ⟨q :: r.2.requests, r.2.logins, 30 :: r.2.sleeps⟩)
    else if resp.status = 403 then
      let r := Dsl.query q 0 rest
      (r.1, ⟨q :: r.2.requests, r.2.logins + 1, r.2.sleeps⟩)
    else if resp.status = 200 ∨ resp.status = 400 ∨ resp.status = 500 then
      (Outcome.ok ⟨resp.body⟩, ⟨[q], 0, []⟩)
    else if 0 < retry then
      let r := Dsl.query q (retry - 1) rest
      (r.1, ⟨q :: r.2.requests, r.2.logins, 30 :: r.2.sleeps⟩)
    else
      (raise_for_status resp.status, ⟨[q], 0, []⟩)

/-- chunks_of from dimensions.py: repeatedly slice off the next size elements
and yield each non-empty slice. -/
def chunks_of {α : Type} : List α → Nat → List (List α)
  | [], _ => []
  | x :: xs, size =>
    if _hs : size = 0 then []
    else (x :: xs).take size :: chunks_of ((x :: xs).drop size) size
termination_by l _ => l.length
decreasing_by
  simp only [List.length_drop, List.length_cons]
  omega

/-- Modelled from the spec: Dsl.query_iterative, the loop executor, is called
from src/dimcli/jupyter/magics.py but its definition is not among the source
files. Per spec section 4.3: each page request uses a fixed page size, the
offset starts at 0 and grows by the page size; the loop stops when a page is
shorter than the page size or when an optional declared total has been
reached; pages are concatenated in request order. The srv argument is the
server (offset to page), fuel bounds the recursion depth of the model, and
the value returned pairs the merged records with the offsets requested. -/
def query_iterative (pagesize : Nat) (total : Option Nat) (srv : Nat → List Json) :
    Nat → Nat → Option (List Json × List Nat)
  | 0, _ => none
  | fuel + 1, offset =>
    let page := srv offset
    let reached : Bool :=
      match total with
      | some t => decide (t ≤ offset + page.length)
      | none => false
    if decide (page.length < pagesize) || reached then
      some (page, [offset])
    else
      match query_iterative pagesize total srv fuel (offset + pagesize) with
      | none => none
      | some pr => some (page ++ pr.1, offset :: pr.2)

/-! Theorems -/

lemma keysAndCountGo_map (kvs : List (String × Json))
    (h : ∀ kv ∈ kvs, (Json.pyLen kv.2).isSome = true) :
    keysAndCountGo kvs = some (kvs.map fun kv => (kv.1, (Json.pyLen kv.2).getD 0)) := by
  induction kvs with
  | nil => rfl
  | cons hd tl ih =>
    obtain ⟨k, v⟩ := hd
    have hh : (Json.pyLen v).isSome = true := h (k, v) (List.mem_cons_self _ tl)
    obtain ⟨n, hn⟩ := Option.isSome_iff_exists.mp hh
    have ht : ∀ kv ∈ tl, (Json.pyLen kv.2).isSome = true :=
      fun kv hm => h kv (List.mem_cons_of_mem _ hm)
    simp [keysAndCountGo, hn, ih ht]

/-- Claim C7: key-style access on a Result returns the payload's value when the
key is present, and the not-found sentinel (the JSON value False, not an
error) when it is absent; the payload itself is a pure input and is unchanged
by the lookup. -/
theorem result_getitem_present_or_sentinel (kvs : List (String × Json)) (key : String) :
    (∀ v, kvs.lookup key = some v → (Result.mk kvs).getItem key = v)
    ∧ (kvs.lookup key = none → (Result.mk kvs).getItem key = Json.bool false) := by
  constructor
  · intro v hv
    simp [Result.getItem, hv]
  · intro hv
    simp [Result.getItem, hv]

theorem result_getitem_present_or_sentinel_witness :
    (Result.mk [("publications", Json.arr [Json.null])]).getItem "publications" = Json.arr [Json.null]
    ∧ (Result.mk [("publications", Json.arr [Json.null])]).getItem "missing_key" = Json.bool false :=
  ⟨(result_getitem_present_or_sentinel [("publications", Json.arr [Json.null])] "publications").1 _ rfl,
   (result_getitem_present_or_sentinel [("publications", Json.arr [Json.null])] "missing_key").2 rfl⟩

/-- Claim C8: attribute-style access equals key-style access, with the single
renaming rule that the attribute named stats is redirected to the _stats key. -/
theorem result_getattr_eq_getitem (kvs : List (String × Json)) (name : String) :
    (Result.mk kvs).getAttr "stats" = (Result.mk kvs).getItem "_stats"
    ∧ (name ≠ "stats" → (Result.mk kvs).getAttr name = (Result.mk kvs).getItem name) := by
  constructor
  · simp [Result.getAttr]
  · intro hn
    simp [Result.getAttr, hn]

theorem result_getattr_eq_getitem_witness :
    (Result.mk [("_stats", Json.obj [("total_count", Json.num 5)])]).getAttr "stats"
      = (Result.mk [("_stats", Json.obj [("total_count", Json.num 5)])]).getItem "_stats"
    ∧ (Result.mk [("_stats", Json.obj [("total_count", Json.num 5)])]).getAttr "publications"
      = (Result.mk [("_stats", Json.obj [("total_count", Json.num 5)])]).getItem "publications" :=
  ⟨(result_getattr_eq_getitem [("_stats", Json.obj [("total_count", Json.num 5)])] "publications").1,
   (result_getattr_eq_getitem [("_stats", Json.obj [("total_count", Json.num 5)])] "publications").2 (by decide)⟩

/-- Claim C6, counterexample: keys_and_count does not keep only the
sequence-valued keys; on a payload with a list-valued key and a mapping-valued
key it also returns a pair for the mapping-valued key, while the claimed
behavior would drop it. -/
theorem keys_and_count_includes_nonsequence :
    Result.keys_and_count
        ⟨[("publications", Json.arr [Json.null]), ("_stats", Json.obj [("total_count", Json.num 5)])]⟩
      = some [("publications", 1), ("_stats", 1)]
    ∧ keysAndCountClaimed
        ⟨[("publications", Json.arr [Json.null]), ("_stats", Json.obj [("total_count", Json.num 5)])]⟩
      = [("publications", 1)]
    ∧ Json.isSeq (Json.obj [("total_count", Json.num 5)]) = false :=
  ⟨rfl, rfl, rfl⟩

/-- Claim C6, amended: keys_and_count returns the (key, len-of-value) pairs of
every top-level key, in the payload's key order, whenever every value has a
Python length (it raises a TypeError otherwise); in particular on a payload
with two list-valued keys it returns the two (key, item-count) pairs in
payload order. -/
theorem keys_and_count_all_keys (kvs : List (String × Json))
    (h : ∀ kv ∈ kvs, (Json.pyLen kv.2).isSome = true) :
    Result.keys_and_count ⟨kvs⟩
      = some (kvs.map fun kv => (kv.1, (Json.pyLen kv.2).getD 0)) :=
  keysAndCountGo_map kvs h

theorem keys_and_count_all_keys_witness :
    Result.keys_and_count ⟨[("grants", Json.arr [Json.null, Json.null]), ("researchers", Json.arr [Json.null])]⟩
      = some [("grants", 2), ("researchers", 1)] :=
  keys_and_count_all_keys
    [("grants", Json.arr [Json.null, Json.null]), ("researchers", Json.arr [Json.null])]
    (by decide)

lemma chunks_of_eq_nil_iff {α : Type} (xs : List α) (size : Nat) (h : 0 < size) :
    chunks_of xs size = [] ↔ xs = [] := by
  cases xs with
  | nil => simp [chunks_of]
  | cons x t =>
    have hs : size ≠ 0 := by omega
    simp [chunks_of, hs]

/-- Claim C9: for a positive chunk size, chunks_of splits a sequence into
ordered sub-sequences whose concatenation is the original sequence, every
chunk but possibly the last has exactly the given size, and no emitted chunk
is empty. -/
theorem chunks_of_partition {α : Type} (xs : List α) (size : Nat) (h : 0 < size) :
    (chunks_of xs size).flatten = xs
    ∧ (∀ c ∈ chunks_of xs size, c ≠ [])
    ∧ (∀ c ∈ (chunks_of xs size).dropLast, c.length = size) := by
  revert h
  induction xs, size using chunks_of.induct with
  | case1 size =>
    intro h
    simp [chunks_of]
  | case2 x xs =>
    intro h
    omega
  | case3 x xs size hs ih =>
    intro h
    obtain ⟨ihf, ihne, ihlast⟩ := ih h
    have hchunks : chunks_of (x :: xs) size
        = (x :: xs).take size :: chunks_of ((x :: xs).drop size) size := by
      simp [chunks_of, hs]
    refine ⟨?_, ?_, ?_⟩
    · rw [hchunks, List.flatten_cons, ihf, List.take_append_drop]
    · intro c hc
      rw [hchunks] at hc
      rcases List.mem_cons.mp hc with rfl | hc'
      · intro hnil
        have hlen : ((x :: xs).take size).length = min size (xs.length + 1) := by
          rw [List.length_take, List.length_cons]
        rw [hnil] at hlen
        simp only [List.length_nil] at hlen
        omega
      · exact ihne c hc'
    · intro c hc
      rw [hchunks] at hc
      by_cases hrest : chunks_of ((x :: xs).drop size) size = []
      · rw [hrest, List.dropLast_single] at hc
        exact absurd hc (List.not_mem_nil c)
      · rw [List.dropLast_cons_of_ne_nil hrest] at hc
        rcases List.mem_cons.mp hc with rfl | hc'
        · have hd : (x :: xs).drop size ≠ [] := by
            intro hdn
            rw [hdn] at hrest
            simp [chunks_of] at hrest
          have hlen : size ≤ (x :: xs).length := by
            by_contra hlt
            push_neg at hlt
            exact hd (List.drop_eq_nil_of_le (Nat.le_of_lt hlt))
          rw [List.length_take]
          omega
        · exact ihlast c hc'

theorem chunks_of_partition_witness :
    (chunks_of [1, 2, 3, 4, 5] 2).flatten = [1, 2, 3, 4, 5]
    ∧ (∀ c ∈ chunks_of [1, 2, 3, 4, 5] 2, c ≠ [])
    ∧ (∀ c ∈ (chunks_of [1, 2, 3, 4, 5] 2).dropLast, c.length = 2) :=
  chunks_of_partition [1, 2, 3, 4, 5] 2 (by decide)

/-- Claim C1: while the session holds a token, a response with status 200, 400
or 500 makes query return a Result whose payload is exactly the decoded body,
immediately: one request is dispatched, no sleep, no re-login, for any retry
budget. -/
theorem query_success_returns_body (q : String) (retry s : Nat)
    (body : List (String × Json)) (rest : List Response)
    (h : s = 200 ∨ s = 400 ∨ s = 500) :
    Dsl.query q retry (⟨s, body⟩ :: rest) = (Outcome.ok ⟨body⟩, ⟨[q], 0, []⟩) := by
  rcases h with h | h | h <;> subst h <;> simp [Dsl.query]

theorem query_success_returns_body_witness :
    Dsl.query "search publications return publications" 0
        [⟨200, [("publications", Json.arr [Json.null])]⟩]
      = (Outcome.ok ⟨[("publications", Json.arr [Json.null])]⟩,
         ⟨["search publications return publications"], 0, []⟩) :=
  query_success_returns_body "search publications return publications" 0 200
    [("publications", Json.arr [Json.null])] [] (Or.inl rfl)

/-- Claim C2: a 403 response triggers exactly one re-login and one
re-execution of the same query string; a 403 followed by a 200 on the retried
request yields the same outcome as the 200 alone would have. -/
theorem query_403_single_relogin (q : String) (retry : Nat)
    (e body : List (String × Json)) (rest : List Response) :
    Dsl.query q retry (⟨403, e⟩ :: ⟨200, body⟩ :: rest)
      = (Outcome.ok ⟨body⟩, ⟨[q, q], 1, []⟩)
    ∧ (Dsl.query q retry (⟨403, e⟩ :: ⟨200, body⟩ :: rest)).1
      = (Dsl.query q retry (⟨200, body⟩ :: rest)).1 := by
  constructor <;> simp [Dsl.query]

/-- Claim C4: every 429 response is followed by one 30-second sleep and a
retry of the identical query string, with no bound on the number of retries:
for any number k of consecutive 429 responses (two included) followed by a
200, the call dispatches the same query k+1 times, sleeps 30 seconds k times,
and returns the 200 body. -/
theorem query_429_always_retries (q : String) (retry k : Nat)
    (b body : List (String × Json)) (rest : List Response) :
    Dsl.query q retry (List.replicate k ⟨429, b⟩ ++ ⟨200, body⟩ :: rest)
      = (Outcome.ok ⟨body⟩, ⟨List.replicate (k + 1) q, 0, List.replicate k 30⟩) := by
  induction k generalizing retry with
  | zero => simp [Dsl.query]
  | succ m ih =>
    simp only [List.replicate_succ, List.cons_append]
    simp [Dsl.query, ih 0, List.replicate_succ]

/-- Claim C3, counterexample: status 201 is outside the set 200, 400, 500,
429, 403, yet with the default retry budget 0 query does not raise: the
underlying raise_for_status is a no-op below status 400, so the call returns
None. -/
theorem query_unexpected_status_201_no_raise :
    (Dsl.query "q" 0 [⟨201, []⟩]).1 = Outcome.retNone
    ∧ (Dsl.query "q" 0 [⟨201, []⟩]).1 ≠ Outcome.raised 201 := by
  constructor
  · rfl
  · intro hc
    rw [show (Dsl.query "q" 0 [⟨201, []⟩]).1 = Outcome.retNone from rfl] at hc
    exact Outcome.noConfusion hc

/-- Claim C3, amended: for a status outside the set 200, 400, 500, 429, 403
that lies in the HTTP error range 400..599 (e.g. 503), a retry budget of n and
that same status on every attempt make query dispatch the request exactly n+1
times (so budget 0 performs zero additional requests), sleep 30 seconds before
each of the n retries, and finally raise the transport error; an unexpected
status below 400 instead ends with None returned, as the counterexample
records. -/
lemma query_cons_unexpected (q : String) (retry : Nat) (resp : Response)
    (rest : List Response)
    (h429 : resp.status ≠ 429) (h403 : resp.status ≠ 403) (h200 : resp.status ≠ 200)
    (h400 : resp.status ≠ 400) (h500 : resp.status ≠ 500) :
    Dsl.query q retry (resp :: rest)
      = if 0 < retry then
          ((Dsl.query q (retry - 1) rest).1,
           ⟨q :: (Dsl.query q (retry - 1) rest).2.requests,
            (Dsl.query q (retry - 1) rest).2.logins,
            30 :: (Dsl.query q (retry - 1) rest).2.sleeps⟩)
        else (raise_for_status resp.status, ⟨[q], 0, []⟩) := by
  simp [Dsl.query, h429, h403, h200, h400, h500]

theorem query_unexpected_exhausts_budget (q : String) (n s : Nat)
    (body : List (String × Json))
    (herr : 400 ≤ s) (hub : s ≤ 599)
    (h400 : s ≠ 400) (h403 : s ≠ 403) (h429 : s ≠ 429) (h500 : s ≠ 500) :
    Dsl.query q n (List.replicate (n + 1) ⟨s, body⟩)
      = (Outcome.raised s, ⟨List.replicate (n + 1) q, 0, List.replicate n 30⟩) := by
  have h200 : s ≠ 200 := by omega
  induction n with
  | zero =>
    rw [List.replicate_one, query_cons_unexpected q 0 ⟨s, body⟩ [] h429 h403 h200 h400 h500]
    rw [if_neg (by omega)]
    rw [raise_for_status, if_pos ⟨herr, hub⟩]
    rfl
  | succ m ih =>
    rw [List.replicate_succ,
        query_cons_unexpected q (m + 1) ⟨s, body⟩ _ h429 h403 h200 h400 h500]
    rw [if_pos (Nat.succ_pos m)]
    simp only [Nat.add_sub_cancel]
    rw [ih]
    simp [List.replicate_succ]

theorem query_unexpected_exhausts_budget_witness :
    Dsl.query "q" 2 (List.replicate 3 ⟨503, []⟩)
      = (Outcome.raised 503, ⟨List.replicate 3 "q", 0, List.replicate 2 30⟩) :=
  query_unexpected_exhausts_budget "q" 2 503 [] (by decide) (by decide)
    (by decide) (by decide) (by decide) (by decide)

/-- Claim C10: the recursive re-execution after a 429 or a 403 does not pass
the remaining retry budget, so it runs with the default budget 0: even with a
caller budget n greater than 0, a 429 (or 403) followed by an unexpected 503
raises at once instead of consuming the rest of the budget. -/
theorem query_429_403_reset_budget (q : String) (n : Nat) (h : 0 < n)
    (b1 b2 : List (String × Json)) (rest : List Response) :
    Dsl.query q n (⟨429, b1⟩ :: ⟨503, b2⟩ :: rest)
      = (Outcome.raised 503, ⟨[q, q], 0, [30]⟩)
    ∧ Dsl.query q n (⟨403, b1⟩ :: ⟨503, b2⟩ :: rest)
      = (Outcome.raised 503, ⟨[q, q], 1, []⟩) := by
  constructor <;> simp [Dsl.query, raise_for_status]

theorem query_429_403_reset_budget_witness :
    Dsl.query "q" 1 [⟨429, []⟩, ⟨503, []⟩] = (Outcome.raised 503, ⟨["q", "q"], 0, [30]⟩)
    ∧ Dsl.query "q" 1 [⟨403, []⟩, ⟨503, []⟩] = (Outcome.raised 503, ⟨["q", "q"], 1, []⟩) :=
  query_429_403_reset_budget "q" 1 (by decide) [] [] []

/-- Claim C5: over a result set of 1237 records served in pages of at most 500
(so page sizes 500, 500, 237), the loop executor issues exactly the three
requests at offsets 0, 500 and 1000, stops at the short third page, and the
merged result is the whole 1237-record set; over a 42-record set (first page
already short) it issues exactly one request, at offset 0. -/
lemma query_iterative_stop (ps : Nat) (srv : Nat → List Json) (fuel offset : Nat)
    (h : (srv offset).length < ps) :
    query_iterative ps none srv (fuel + 1) offset = some (srv offset, [offset]) := by
  rw [query_iterative]
  simp [h]

lemma query_iterative_step (ps : Nat) (srv : Nat → List Json) (fuel offset : Nat)
    (h : ¬ (srv offset).length < ps) (recs : List Json) (offs : List Nat)
    (hrec : query_iterative ps none srv fuel (offset + ps) = some (recs, offs)) :
    query_iterative ps none srv (fuel + 1) offset
      = some (srv offset ++ recs, offset :: offs) := by
  rw [query_iterative]
  simp [h, hrec]

theorem loop_pagination (records short : List Json) (f : Nat)
    (h : records.length = 1237) (hs : short.length = 42) :
    query_iterative 500 none (fun o => (records.drop o).take 500) (f + 3) 0
      = some (records, [0, 500, 1000])
    ∧ query_iterative 500 none (fun o => (short.drop o).take 500) (f + 1) 0
      = some (short, [0]) := by
  have t2 : (records.drop 1000).take 500 = records.drop 1000 :=
    List.take_of_length_le (by rw [List.length_drop, h]; omega)
  have dd : (records.drop 500).drop 500 = records.drop 1000 := by
    rw [List.drop_drop]
  have m1 : (records.drop 500).take 500 ++ records.drop 1000 = records.drop 500 := by
    rw [← dd, List.take_append_drop]
  have e2 : query_iterative 500 none (fun o => (records.drop o).take 500) (f + 1) 1000
      = some (records.drop 1000, [1000]) := by
    have hstop : ((fun o => (records.drop o).take 500) 1000).length < 500 := by
      simp only [List.length_take, List.length_drop, h]
      omega
    have hq := query_iterative_stop 500 (fun o => (records.drop o).take 500) f 1000 hstop
    simpa [t2] using hq
  have e1 : query_iterative 500 none (fun o => (records.drop o).take 500) (f + 1 + 1) 500
      = some (records.drop 500, [500, 1000]) := by
    have hgo : ¬ ((fun o => (records.drop o).take 500) 500).length < 500 := by
      simp only [List.length_take, List.length_drop, h]
      omega
    have hq := query_iterative_step 500 (fun o => (records.drop o).take 500) (f + 1) 500 hgo
      (records.drop 1000) [1000] e2
    simpa [m1] using hq
  constructor
  · have hgo0 : ¬ ((fun o => (records.drop o).take 500) 0).length < 500 := by
      simp only [List.length_take, List.length_drop, h]
      omega
    have hq := query_iterative_step 500 (fun o => (records.drop o).take 500) (f + 1 + 1) 0 hgo0
      (records.drop 500) [500, 1000] e1
    show query_iterative 500 none (fun o => (records.drop o).take 500) (f + 1 + 1 + 1) 0
      = some (records, [0, 500, 1000])
    simpa [List.drop_zero, List.take_append_drop] using hq
  · have hstop0 : ((fun o => (short.drop o).take 500) 0).length < 500 := by
      simp only [List.length_take, List.length_drop, hs]
      omega
    have ts : short.take 500 = short :=
      List.take_of_length_le (by rw [hs]; omega)
    have hq := query_iterative_stop 500 (fun o => (short.drop o).take 500) f 0 hstop0
    simpa [List.drop_zero, ts] using hq

theorem loop_pagination_witness :
    query_iterative 500 none (fun o => ((List.replicate 1237 Json.null).drop o).take 500) 3 0
      = some (List.replicate 1237 Json.null, [0, 500, 1000])
    ∧ query_iterative 500 none (fun o => ((List.replicate 42 Json.null).drop o).take 500) 1 0
      = some (List.replicate 42 Json.null, [0]) :=
  loop_pagination (List.replicate 1237 Json.null) (List.replicate 42 Json.null) 0
    (by rw [List.length_replicate]) (by rw [List.length_replicate])

end Dimcli
